import Mathlib

/-!
# Verification of the SBIN webhook trading bot

A shallow embedding of the position-lifecycle engine of the `sbin-webhook-bot`
repository, together with theorems settling the specification claims.

Conventions:
* Prices and percentages are rationals (`ℚ`); the Python floats only ever go
  through `+ - * / max min` comparisons here, so exact rational arithmetic is
  the faithful model of the formulas.
* Sides and directions are the strings the source uses (`"LONG"`, `"SHORT"`).
* Broker, filesystem and cloud calls are modelled as oracle arguments and as
  emitted action lists; a handler "places no order" iff its action list has no
  order-placement entry.
-/

set_option autoImplicit false

namespace SbinBot

/-- The shared position record (module `Config.py` / dict `current_position`
as read and written by `monitor.py`).  `effective_stop_loss` is absent until
the first stop recomputation, hence an `Option`; `quantity` may be absent
(the monitor then defaults it to 750). -/
structure Position where
  active : Bool
  symbol : String
  side : String
  entry_price : ℚ
  stop_loss : ℚ
  effective_stop_loss : Option ℚ
  quantity : Option ℤ
deriving DecidableEq, Repr

/-- The inactive defaults a cleared position is reset to (`Config.py`'s
initial `current_position`: `active = False`, all trade fields empty). -/
def clearedPosition : Position :=
  { active := false, symbol := "", side := "", entry_price := 0, stop_loss := 0
    effective_stop_loss := none, quantity := none }

namespace Monitor

/-- Result of one stop-loss/trailing-stop recomputation (`monitor.py`,
`monitor_loop`, 5-minute block): the updated favourable-price watermark,
the newly stored effective stop, and whether the exit fired. -/
structure SLStepOut where
  track : ℚ
  eff : ℚ
  exited : Bool
deriving DecidableEq, Repr

/-- `monitor.py` lines 140–165 (LONG branch of the 5-minute SL/TSL check):
`high = max(track["highest_price"], ltp)`,
`potential_tsl = high * (1 - TSL_PERCENT)`,
`effective_stop_loss = max(initial_stop_loss, min(potential_tsl, ltp))`,
exit when `ltp <= effective_stop_loss`. -/
def slStepLong (initSL tsl prevHigh ltp : ℚ) : SLStepOut :=
  let high := max prevHigh ltp
  let potentialTsl := high * (1 - tsl)
  let eff := max initSL (min potentialTsl ltp)
  { track := high, eff := eff, exited := decide (ltp ≤ eff) }

/-- `monitor.py` lines 167–192 (SHORT branch):
`low = min(track["lowest_price"], ltp)`,
`potential_tsl = low * (1 + TSL_PERCENT)`,
`effective_stop_loss = min(initial_stop_loss, max(potential_tsl, ltp))`,
exit when `ltp >= effective_stop_loss`. -/
def slStepShort (initSL tsl prevLow ltp : ℚ) : SLStepOut :=
  let low := min prevLow ltp
  let potentialTsl := low * (1 + tsl)
  let eff := min initSL (max potentialTsl ltp)
  { track := low, eff := eff, exited := decide (eff ≤ ltp) }

/-- The LONG recomputation rule as §4.3 of the spec words it: candidate trail
from the running high, effective stop `max(initial, min(candidate, price))`. -/
def specEffStopLong (initSL tsl prevHigh ltp : ℚ) : ℚ :=
  max initSL (min (max prevHigh ltp * (1 - tsl)) ltp)

/-- Run the 5-minute recomputation over a price sequence, carrying the
`(watermark, effective stop)` state; `none` when some step triggered exit. -/
def runLong (initSL tsl : ℚ) : ℚ × ℚ → List ℚ → Option (ℚ × ℚ)
  | st, [] => some st
  | st, ltp :: rest =>
      let o := slStepLong initSL tsl st.1 ltp
      if o.exited then none else runLong initSL tsl (o.track, o.eff) rest

/-- SHORT mirror of `runLong`. -/
def runShort (initSL tsl : ℚ) : ℚ × ℚ → List ℚ → Option (ℚ × ℚ)
  | st, [] => some st
  | st, ltp :: rest =>
      let o := slStepShort initSL tsl st.1 ltp
      if o.exited then none else runShort initSL tsl (o.track, o.eff) rest

theorem slStepLong_track (initSL tsl h0 ltp : ℚ) :
    (slStepLong initSL tsl h0 ltp).track = max h0 ltp := rfl

theorem slStepLong_eff (initSL tsl h0 ltp : ℚ) :
    (slStepLong initSL tsl h0 ltp).eff =
      max initSL (min (max h0 ltp * (1 - tsl)) ltp) := rfl

theorem slStepLong_exited (initSL tsl h0 ltp : ℚ) :
    (slStepLong initSL tsl h0 ltp).exited = true ↔
      ltp ≤ (slStepLong initSL tsl h0 ltp).eff := by
  simp [slStepLong]

theorem slStepShort_exited (initSL tsl l0 ltp : ℚ) :
    (slStepShort initSL tsl l0 ltp).exited = true ↔
      (slStepShort initSL tsl l0 ltp).eff ≤ ltp := by
  simp [slStepShort]

/-- Exit-trigger characterisation for LONG: the price-cap in the effective
stop never masks a trigger, so the step exits iff
`ltp ≤ max initSL (high * (1 - tsl))` for the updated high. -/
theorem slStepLong_exited_iff (initSL tsl h0 ltp : ℚ) :
    (slStepLong initSL tsl h0 ltp).exited = true ↔
      ltp ≤ max initSL (max h0 ltp * (1 - tsl)) := by
  rw [slStepLong_exited, slStepLong_eff]
  constructor
  · intro h
    exact le_trans h (max_le_max le_rfl (min_le_left _ _))
  · intro h
    rw [max_min_distrib_left]
    exact le_min h (le_max_right _ _)

/-- Exit-trigger characterisation for SHORT: the step exits iff
`min initSL (low * (1 + tsl)) ≤ ltp` for the updated low. -/
theorem slStepShort_exited_iff (initSL tsl l0 ltp : ℚ) :
    (slStepShort initSL tsl l0 ltp).exited = true ↔
      min initSL (min l0 ltp * (1 + tsl)) ≤ ltp := by
  rw [slStepShort_exited]
  show min initSL (max (min l0 ltp * (1 + tsl)) ltp) ≤ ltp ↔ _
  constructor
  · intro h
    exact le_trans (min_le_min le_rfl (le_max_left _ _)) h
  · intro h
    rw [min_max_distrib_left]
    exact max_le h (min_le_right _ _)

/-- If a LONG recomputation does not trigger exit, the candidate trail was at
or below the price, the stored effective stop did not decrease, and the
invariant `eff ≤ max initSL (high * (1 - tsl))` is re-established. -/
theorem slStepLong_no_exit (initSL tsl h0 e0 ltp : ℚ) (htsl : tsl ≤ 1)
    (hinv : e0 ≤ max initSL (h0 * (1 - tsl)))
    (hne : (slStepLong initSL tsl h0 ltp).exited = false) :
    e0 ≤ (slStepLong initSL tsl h0 ltp).eff ∧
      (slStepLong initSL tsl h0 ltp).eff ≤
        max initSL ((slStepLong initSL tsl h0 ltp).track * (1 - tsl)) ∧
      h0 ≤ (slStepLong initSL tsl h0 ltp).track := by
  have hlt : (slStepLong initSL tsl h0 ltp).eff < ltp := by
    by_contra hc
    push_neg at hc
    have hx := (slStepLong_exited initSL tsl h0 ltp).mpr hc
    rw [hne] at hx
    exact Bool.false_ne_true hx
  have hpot : max h0 ltp * (1 - tsl) ≤ ltp := by
    by_contra hc
    push_neg at hc
    have hmin : min (max h0 ltp * (1 - tsl)) ltp = ltp := min_eq_right hc.le
    have : ltp ≤ (slStepLong initSL tsl h0 ltp).eff := by
      rw [slStepLong_eff, hmin]; exact le_max_right _ _
    exact absurd hlt (not_lt.mpr this)
  have heff : (slStepLong initSL tsl h0 ltp).eff =
      max initSL (max h0 ltp * (1 - tsl)) := by
    rw [slStepLong_eff, min_eq_left hpot]
  have hmul : h0 * (1 - tsl) ≤ max h0 ltp * (1 - tsl) :=
    mul_le_mul_of_nonneg_right (le_max_left _ _) (by linarith)
  refine ⟨?_, ?_, le_max_left _ _⟩
  · rw [heff]
    exact le_trans hinv (max_le_max le_rfl hmul)
  · rw [heff, slStepLong_track]

/-- SHORT mirror of `slStepLong_no_exit`. -/
theorem slStepShort_no_exit (initSL tsl l0 e0 ltp : ℚ) (htsl : 0 ≤ tsl)
    (hinv : min initSL (l0 * (1 + tsl)) ≤ e0)
    (hne : (slStepShort initSL tsl l0 ltp).exited = false) :
    (slStepShort initSL tsl l0 ltp).eff ≤ e0 ∧
      min initSL ((slStepShort initSL tsl l0 ltp).track * (1 + tsl)) ≤
        (slStepShort initSL tsl l0 ltp).eff ∧
      (slStepShort initSL tsl l0 ltp).track ≤ l0 := by
  have hlt : ltp < (slStepShort initSL tsl l0 ltp).eff := by
    by_contra hc
    push_neg at hc
    have hx := (slStepShort_exited initSL tsl l0 ltp).mpr hc
    rw [hne] at hx
    exact Bool.false_ne_true hx
  have hpot : ltp ≤ min l0 ltp * (1 + tsl) := by
    by_contra hc
    push_neg at hc
    have hmax : max (min l0 ltp * (1 + tsl)) ltp = ltp := max_eq_right hc.le
    have : (slStepShort initSL tsl l0 ltp).eff ≤ ltp := by
      show min initSL (max (min l0 ltp * (1 + tsl)) ltp) ≤ ltp
      rw [hmax]; exact min_le_right _ _
    exact absurd hlt (not_lt.mpr this)
  have heff : (slStepShort initSL tsl l0 ltp).eff =
      min initSL (min l0 ltp * (1 + tsl)) := by
    show min initSL (max (min l0 ltp * (1 + tsl)) ltp) = _
    rw [max_eq_left hpot]
  have hmul : min l0 ltp * (1 + tsl) ≤ l0 * (1 + tsl) :=
    mul_le_mul_of_nonneg_right (min_le_left _ _) (by linarith)
  refine ⟨?_, ?_, min_le_left _ _⟩
  · rw [heff]
    exact le_trans (min_le_min le_rfl hmul) hinv
  · rw [heff]
    rfl

/-- Along any exit-free run of LONG recomputations, the effective stop is
non-decreasing, the invariant is maintained and the high watermark rises. -/
theorem runLong_mono (initSL tsl : ℚ) (htsl : tsl ≤ 1) :
    ∀ (ltps : List ℚ) (h0 e0 h1 e1 : ℚ),
      e0 ≤ max initSL (h0 * (1 - tsl)) →
      runLong initSL tsl (h0, e0) ltps = some (h1, e1) →
      e0 ≤ e1 ∧ e1 ≤ max initSL (h1 * (1 - tsl)) ∧ h0 ≤ h1 := by
  intro ltps
  induction ltps with
  | nil =>
      intro h0 e0 h1 e1 hinv hrun
      simp only [runLong, Option.some.injEq, Prod.mk.injEq] at hrun
      obtain ⟨rfl, rfl⟩ := hrun
      exact ⟨le_rfl, hinv, le_rfl⟩
  | cons ltp rest ih =>
      intro h0 e0 h1 e1 hinv hrun
      simp only [runLong] at hrun
      by_cases hx : (slStepLong initSL tsl h0 ltp).exited = true
      · rw [if_pos hx] at hrun; exact absurd hrun (by simp)
      · rw [if_neg hx] at hrun
        have hne : (slStepLong initSL tsl h0 ltp).exited = false :=
          Bool.not_eq_true _ ▸ (by simpa using hx)
        obtain ⟨h1e, h2e, h3e⟩ := slStepLong_no_exit initSL tsl h0 e0 ltp htsl hinv hne
        obtain ⟨ih1, ih2, ih3⟩ := ih _ _ _ _ h2e hrun
        exact ⟨le_trans h1e ih1, ih2, le_trans h3e ih3⟩

/-- Along any exit-free run of SHORT recomputations, the effective stop is
non-increasing, the invariant is maintained and the low watermark falls. -/
theorem runShort_anti (initSL tsl : ℚ) (htsl : 0 ≤ tsl) :
    ∀ (ltps : List ℚ) (l0 e0 l1 e1 : ℚ),
      min initSL (l0 * (1 + tsl)) ≤ e0 →
      runShort initSL tsl (l0, e0) ltps = some (l1, e1) →
      e1 ≤ e0 ∧ min initSL (l1 * (1 + tsl)) ≤ e1 ∧ l1 ≤ l0 := by
  intro ltps
  induction ltps with
  | nil =>
      intro l0 e0 l1 e1 hinv hrun
      simp only [runShort, Option.some.injEq, Prod.mk.injEq] at hrun
      obtain ⟨rfl, rfl⟩ := hrun
      exact ⟨le_rfl, hinv, le_rfl⟩
  | cons ltp rest ih =>
      intro l0 e0 l1 e1 hinv hrun
      simp only [runShort] at hrun
      by_cases hx : (slStepShort initSL tsl l0 ltp).exited = true
      · rw [if_pos hx] at hrun; exact absurd hrun (by simp)
      · rw [if_neg hx] at hrun
        have hne : (slStepShort initSL tsl l0 ltp).exited = false :=
          Bool.not_eq_true _ ▸ (by simpa using hx)
        obtain ⟨h1e, h2e, h3e⟩ := slStepShort_no_exit initSL tsl l0 e0 ltp htsl hinv hne
        obtain ⟨ih1, ih2, ih3⟩ := ih _ _ _ _ h2e hrun
        exact ⟨le_trans ih1 h1e, ih2, le_trans ih3 h3e⟩

end Monitor

namespace Histogram

/-- Pandas `ewm(span=n, adjust=False).mean()` recurrence continued from a
previous smoothed value: `y = alpha*x + (1-alpha)*y_prev`. -/
def ewmFrom (alpha prev : ℚ) : List ℚ → List ℚ
  | [] => []
  | x :: xs =>
      let y := alpha * x + (1 - alpha) * prev
      y :: ewmFrom alpha y xs

/-- Pandas `ewm(span=n, adjust=False).mean()`: the first output equals the
first input, then the recurrence with `alpha = 2/(span+1)`. -/
def ewmSpan (span : ℕ) : List ℚ → List ℚ
  | [] => []
  | x :: xs => x :: ewmFrom (2 / (span + 1)) x xs

/-- `histogram.py` lines 80–84: `macd = ema12 - ema26` (span-12 and span-26
exponential means of the closes), `signal` the span-9 exponential mean of
`macd`, and `hist = macd - signal`, pointwise. -/
def histSeries (closes : List ℚ) : List ℚ :=
  let ema12 := ewmSpan 12 closes
  let ema26 := ewmSpan 26 closes
  let macd := List.zipWith (fun a b => a - b) ema12 ema26
  let signal := ewmSpan 9 macd
  List.zipWith (fun a b => a - b) macd signal

/-- The dictionary `fetch_histogram` returns on success (`hist`,
`cross_to_green`, `cross_to_red`; the echoed symbol is omitted). -/
structure HistResult where
  hist : ℚ
  cross_to_green : Bool
  cross_to_red : Bool
deriving DecidableEq, Repr

/-- `df['hist'].iloc[-1]`: last element (default 0, unused on live paths). -/
def lastD (l : List ℚ) : ℚ := l.getD (l.length - 1) 0

/-- `df['hist'].iloc[-2]`: second-to-last element. -/
def prevD (l : List ℚ) : ℚ := l.getD (l.length - 2) 0

/-- `histogram.py` `fetch_histogram` (lines 45–111), as a function of the
close prices of the fetched candles: empty fetch → `error_no_candles`;
fewer than 26 candles → `error_insufficient_data`; fewer than 2 rows →
`error_insufficient_history` (unreachable after the 26-check, kept for
fidelity); otherwise the latest/previous histogram values with
`cross_to_green = latest > 0 and prev <= 0` and
`cross_to_red = latest < 0 and prev >= 0`. -/
def fetchHistogram (closes : List ℚ) : Option HistResult × String :=
  if closes.isEmpty then (none, "error_no_candles")
  else if closes.length < 26 then (none, "error_insufficient_data")
  else if closes.length < 2 then (none, "error_insufficient_history")
  else
    let h := histSeries closes
    let latest := lastD h
    let prev := prevD h
    (some { hist := latest,
            cross_to_green := decide (0 < latest) && decide (prev ≤ 0),
            cross_to_red := decide (latest < 0) && decide (0 ≤ prev) },
     "ok")

end Histogram

namespace MacdIndicator

/-- `macd_indicator.calculate_ema`: simple average of the first `period`
points as seed, then `ema = price*alpha + ema*(1-alpha)` over the remaining
points with `alpha = 2/(period+1)`; `None` when fewer than `period` points. -/
def calculateEma (data : List ℚ) (period : ℕ) : Option ℚ :=
  if data.length < period then none
  else
    let alpha : ℚ := 2 / (period + 1)
    let seed := (data.take period).sum / period
    some ((data.drop period).foldl
      (fun ema price => price * alpha + ema * (1 - alpha)) seed)

/-- `macd_indicator.calculate_macd`: MACD line `ema12 - ema26` over the whole
series, and signal line the 9-period `calculate_ema` of the windowed MACD
history `data[i-12:i]` / `data[i-26:i]` for `i in range(26, len(data))`.
The `if short_ema and long_ema` guard uses Python truthiness, so a window
EMA equal to 0.0 causes that history entry to be skipped. -/
def calculateMacd (data : List ℚ) : Option ℚ × Option ℚ :=
  match calculateEma data 12, calculateEma data 26 with
  | some e12, some e26 =>
      let macdHistory := (List.range (data.length - 26)).filterMap (fun j =>
        let i := 26 + j
        match calculateEma ((data.drop (i - 12)).take 12) 12,
              calculateEma ((data.drop (i - 26)).take 26) 26 with
        | some s, some l => if s ≠ 0 ∧ l ≠ 0 then some (s - l) else none
        | _, _ => none)
      (some (e12 - e26), calculateEma macdHistory 9)
  | _, _ => (none, none)

/-- `macd_indicator.is_bullish_crossover`: `False` below 35 points; else true
iff the previous MACD was at most its signal and the current MACD is above
its signal (all four values present). -/
def isBullishCrossover (data : List ℚ) : Bool :=
  if data.length < 35 then false
  else
    match calculateMacd data, calculateMacd data.dropLast with
    | (some cm, some cs), (some pm, some ps) =>
        decide (pm ≤ ps) && decide (cs < cm)
    | _, _ => false

/-- `macd_indicator.is_bearish_crossover`: mirror of the bullish check. -/
def isBearishCrossover (data : List ℚ) : Bool :=
  if data.length < 35 then false
  else
    match calculateMacd data, calculateMacd data.dropLast with
    | (some cm, some cs), (some pm, some ps) =>
        decide (ps ≤ pm) && decide (cm < cs)
    | _, _ => false

end MacdIndicator

namespace OrderManager

/-- Outbound broker order issued while closing a position. -/
inductive ExitAction
  | placeMarketOrder (symbol transaction : String) (quantity : ℤ)
deriving DecidableEq, Repr

/-- Modelled from the spec: `order_manager.exit_position` is imported by
`monitor.py` (`from order_manager import exit_position`) but the
order-manager variant defining it is not among the source files; §4.4 of the
spec specifies it.  If no position is active (or the quantity is zero) it
resets the state defensively and returns, placing no order; otherwise it
places one market order in the opposite direction for the full held quantity
and then unconditionally clears the Position to its inactive defaults,
whether or not that closing order succeeded (`_orderOk`). -/
def exitPosition (pos : Position) (_orderOk : Bool) :
    Position × List ExitAction :=
  let qty := pos.quantity.getD 0
  if pos.active = false ∨ qty ≤ 0 then (clearedPosition, [])
  else
    (clearedPosition,
      [.placeMarketOrder pos.symbol
        (if pos.side = "LONG" then "SELL" else "BUY") qty])

end OrderManager

namespace Monitor

/-- The persisted price-track record (`price_tracker.py`): the highest and
lowest prices seen, both nullable. -/
structure Track where
  highest_price : Option ℚ
  lowest_price : Option ℚ
deriving DecidableEq, Repr

/-- Wall-clock instant as a cycle observes it (`datetime.now()`); `weekday`
uses Python's convention (Monday = 0). -/
structure Time where
  weekday : ℕ
  hour : ℕ
  minute : ℕ
  second : ℕ
deriving DecidableEq, Repr

/-- `monitor.py` `is_5min_boundary_once`: true within the first 10 seconds
of a 5-minute block not yet consumed; `last` models the module-level
`_last_5min_check_timestamp` as the block's hour and start minute. -/
def is5minBoundaryOnce (now : Time) (last : Option (ℕ × ℕ)) :
    Bool × Option (ℕ × ℕ) :=
  if now.minute % 5 = 0 ∧ now.second < 10 then
    let b := (now.hour, now.minute / 5 * 5)
    if last = some b then (false, last) else (true, some b)
  else (false, last)

/-- `monitor.py` `is_30min_boundary_once`, mirror of the 5-minute check. -/
def is30minBoundaryOnce (now : Time) (last : Option (ℕ × ℕ)) :
    Bool × Option (ℕ × ℕ) :=
  if now.minute % 30 = 0 ∧ now.second < 10 then
    let b := (now.hour, now.minute / 30 * 30)
    if last = some b then (false, last) else (true, some b)
  else (false, last)

/-- Observable side effects of one monitor cycle: track persistence, its
remote upload, and invocations of `exit_position`. -/
inductive CycleAction
  | saveHigh (q : ℚ)
  | saveLow (q : ℚ)
  | uploadTrack
  | exitCall
deriving DecidableEq, Repr

/-- The state one `monitor_loop` iteration reads and writes: the shared
position, the persisted price track, and the two boundary timestamps. -/
structure CycleSt where
  pos : Position
  track : Track
  last5 : Option (ℕ × ℕ)
  last30 : Option (ℕ × ℕ)
deriving DecidableEq, Repr

/-- `monitor.py` lines 194–206 (the 30-minute histogram-flip block): on a
fresh 30-minute boundary, a failed histogram fetch skips the check; a LONG
position exits on `cross_to_red`, a SHORT position on `cross_to_green`. -/
def reversalCheck (pos : Position) (now : Time) (last30 : Option (ℕ × ℕ))
    (histRes : Option Histogram.HistResult × String) :
    Position × Option (ℕ × ℕ) × List CycleAction :=
  let b := is30minBoundaryOnce now last30
  if b.1 = true then
    if histRes.2 ≠ "ok" then (pos, b.2, [])
    else
      match histRes.1 with
      | none => (pos, b.2, [])
      | some r =>
        if pos.side = "LONG" ∧ r.cross_to_red = true then
          (clearedPosition, b.2, [.exitCall])
        else if pos.side = "SHORT" ∧ r.cross_to_green = true then
          (clearedPosition, b.2, [.exitCall])
        else (pos, b.2, [])
  else (pos, b.2, [])

/-- One iteration of `monitor_loop`'s body (`monitor.py` lines 79–213):
skip when inactive; skip (retry next cycle) when the LTP fetch failed;
otherwise run the 5-minute SL/TSL block — updating the watermark, saving and
uploading the track, storing the new effective stop, exiting on a breach
(which ends the cycle) — and then the 30-minute histogram-flip block.
`exit_position` clears the position (its spec model) and is recorded as
`exitCall`. -/
def monitorCycle (tsl : ℚ) (st : CycleSt) (now : Time) (ltpRes : Option ℚ)
    (histRes : Option Histogram.HistResult × String) :
    CycleSt × List CycleAction :=
  if st.pos.active = false then (st, [])
  else
    match ltpRes with
    | none => (st, [])
    | some ltp =>
      let entry := st.pos.entry_price
      let initSL := st.pos.stop_loss
      let b5 := is5minBoundaryOnce now st.last5
      if b5.1 = true then
        if st.pos.side = "LONG" then
          let o := slStepLong initSL tsl (st.track.highest_price.getD entry) ltp
          let track' : Track := { st.track with highest_price := some o.track }
          let pos' : Position := { st.pos with effective_stop_loss := some o.eff }
          if o.exited = true then
            ({ pos := clearedPosition, track := track', last5 := b5.2,
               last30 := st.last30 },
             [.saveHigh o.track, .uploadTrack, .exitCall])
          else
            let r := reversalCheck pos' now st.last30 histRes
            ({ pos := r.1, track := track', last5 := b5.2, last30 := r.2.1 },
             [.saveHigh o.track, .uploadTrack] ++ r.2.2)
        else if st.pos.side = "SHORT" then
          let o := slStepShort initSL tsl (st.track.lowest_price.getD entry) ltp
          let track' : Track := { st.track with lowest_price := some o.track }
          let pos' : Position := { st.pos with effective_stop_loss := some o.eff }
          if o.exited = true then
            ({ pos := clearedPosition, track := track', last5 := b5.2,
               last30 := st.last30 },
             [.saveLow o.track, .uploadTrack, .exitCall])
          else
            let r := reversalCheck pos' now st.last30 histRes
            ({ pos := r.1, track := track', last5 := b5.2, last30 := r.2.1 },
             [.saveLow o.track, .uploadTrack] ++ r.2.2)
        else
          let r := reversalCheck st.pos now st.last30 histRes
          ({ pos := r.1, track := st.track, last5 := b5.2, last30 := r.2.1 },
           r.2.2)
      else
        let r := reversalCheck st.pos now st.last30 histRes
        ({ pos := r.1, track := st.track, last5 := b5.2, last30 := r.2.1 },
         r.2.2)

end Monitor

namespace SymbolResolver

/-- Gregorian leap-year test. -/
def isLeap (y : ℕ) : Bool :=
  decide (y % 4 = 0 ∧ (y % 100 ≠ 0 ∨ y % 400 = 0))

/-- `calendar.monthrange(year, month)[1]` — the number of days in a month
(0 for an invalid month number). -/
def daysInMonth (y m : ℕ) : ℕ :=
  if m = 1 then 31 else if m = 2 then (if isLeap y then 29 else 28)
  else if m = 3 then 31 else if m = 4 then 30 else if m = 5 then 31
  else if m = 6 then 30 else if m = 7 then 31 else if m = 8 then 31
  else if m = 9 then 30 else if m = 10 then 31 else if m = 11 then 30
  else if m = 12 then 31 else 0

/-- Days in the months of year `y` strictly before month `m`. -/
def monthDaysBefore (y m : ℕ) : ℕ :=
  ((List.range (m - 1)).map (fun i => daysInMonth y (i + 1))).sum

/-- Proleptic-Gregorian ordinal, matching Python's `date.toordinal`
(January 1 of year 1 ↦ 1). -/
def ordinalOf (y m d : ℕ) : ℕ :=
  365 * (y - 1) + (y - 1) / 4 - (y - 1) / 100 + (y - 1) / 400 +
    monthDaysBefore y m + d

/-- Python's `date.weekday()`: Monday = 0 … Sunday = 6. -/
def weekdayOf (y m d : ℕ) : ℕ := (ordinalOf y m d - 1) % 7

/-- A calendar date. -/
structure Date where
  year : ℕ
  month : ℕ
  day : ℕ
deriving DecidableEq, Repr

/-- Ordinal of a `Date`. -/
def ordinalD (dt : Date) : ℕ := ordinalOf dt.year dt.month dt.day

/-- Downward scan of `get_monthly_expiry`'s loop: the largest day at most
`d` that is a Thursday (weekday 3). -/
def lastThursdayAux (y m : ℕ) : ℕ → Option ℕ
  | 0 => none
  | Nat.succ d =>
      if weekdayOf y m (d + 1) = 3 then some (d + 1)
      else lastThursdayAux y m d

/-- `symbol_resolver.get_monthly_expiry`: the last Thursday of the month
(`None` when no Thursday is found, which real months never hit). -/
def getMonthlyExpiry (y m : ℕ) : Option Date :=
  (lastThursdayAux y m (daysInMonth y m)).map (fun d => ⟨y, m, d⟩)

/-- The hardcoded rollover threshold of `resolve_sbin_future`
(line 85: roll when the expiry is at most 2 days away). -/
def rolloverThresholdDays : ℤ := 2

/-- The date expression `today.replace(day=28) + timedelta(days=4)` followed
by `.replace(day=1)`: day 32 always lands in the following month since no
month has more than 31 days, so this is the first day of the next month. -/
def nextMonthFirst (today : Date) : Date :=
  if today.month = 12 then ⟨today.year + 1, 1, 1⟩
  else ⟨today.year, today.month + 1, 1⟩

/-- Expiry selection of `resolve_sbin_future` (lines 77–92): this month's
last Thursday, replaced by next month's when within the threshold. -/
def rolledExpiry (today : Date) : Option Date :=
  match getMonthlyExpiry today.year today.month with
  | none => none
  | some e =>
      if (ordinalD e : ℤ) - (ordinalD today : ℤ) ≤ rolloverThresholdDays then
        getMonthlyExpiry (nextMonthFirst today).year (nextMonthFirst today).month
      else some e

/-- `expiry.strftime('%b').upper()`. -/
def monthAbbrev (m : ℕ) : String :=
  if m = 1 then "JAN" else if m = 2 then "FEB" else if m = 3 then "MAR"
  else if m = 4 then "APR" else if m = 5 then "MAY" else if m = 6 then "JUN"
  else if m = 7 then "JUL" else if m = 8 then "AUG" else if m = 9 then "SEP"
  else if m = 10 then "OCT" else if m = 11 then "NOV" else if m = 12 then "DEC"
  else ""

/-- The last two digits of the year, zero-padded (`str(year)[-2:]` for
four-digit years). -/
def twoDigitYear (y : ℕ) : String :=
  if y % 100 < 10 then "0" ++ toString (y % 100) else toString (y % 100)

/-- The target symbol base, `SBIN` + two-digit year + month abbreviation +
`FUT` (line 100). -/
def targetSymbolBase (e : Date) : String :=
  "SBIN" ++ twoDigitYear e.year ++ monthAbbrev e.month ++ "FUT"

/-- Python's `in` on strings: some suffix of `s` starts with `pat`. -/
def containsSubstring (s pat : String) : Bool :=
  s.data.tails.any (fun t => pat.data.isPrefixOf t)

/-- Symbol-selection part of `resolve_sbin_future` (lines 94–140), with the
broker catalogue and candle availability as oracles: the first catalogue
symbol containing the target base whose instrument token resolves
(`tokenOk`; token failures and fetch exceptions skip the symbol) and which
has at least 26 thirty-minute candles. -/
def resolveSbinFuture (today : Date) (symbols : List String)
    (tokenOk : String → Bool) (candleCount : String → ℕ) : Option String :=
  match rolledExpiry today with
  | none => none
  | some e =>
      symbols.find? (fun s =>
        containsSubstring s (targetSymbolBase e) && tokenOk s &&
          decide (26 ≤ candleCount s))

/-- An expiry returned by `getMonthlyExpiry` carries the queried month and
year. -/
theorem getMonthlyExpiry_month (y m : ℕ) (e : Date)
    (h : getMonthlyExpiry y m = some e) : e.month = m ∧ e.year = y := by
  unfold getMonthlyExpiry at h
  rcases Option.map_eq_some'.mp h with ⟨d, _, he⟩
  rw [← he]
  exact ⟨rfl, rfl⟩

end SymbolResolver

namespace TradingBot

/-- One OHLC candle row as `LiveTradingBot` consumes it (`date` abstracted
to a numeric key used only for duplicate detection). -/
structure Candle where
  date : ℕ
  copen : ℚ
  chigh : ℚ
  clow : ℚ
  cclose : ℚ
deriving DecidableEq, Repr

/-- `patterns.is_bullish_engulfing`. -/
def isBullishEngulfing (d1 d2 : Candle) : Bool :=
  decide (d1.cclose < d1.copen) && decide (d2.copen < d2.cclose) &&
    decide (d1.copen < d2.cclose) && decide (d2.copen < d1.cclose)

/-- `patterns.is_bearish_engulfing`. -/
def isBearishEngulfing (d1 d2 : Candle) : Bool :=
  decide (d1.copen < d1.cclose) && decide (d2.cclose < d2.copen) &&
    decide (d2.cclose < d1.copen) && decide (d1.cclose < d2.copen)

/-- `trading_bot._is_market_open` (lines 238–259): weekday Monday–Friday and
09:15:00 ≤ now ≤ 15:30:00 IST, modelled at second granularity. -/
def isMarketOpen (t : Monitor.Time) : Bool :=
  let nowSec := t.hour * 3600 + t.minute * 60 + t.second
  decide (t.weekday ≤ 4) && decide (9 * 3600 + 15 * 60 ≤ nowSec) &&
    decide (nowSec ≤ 15 * 3600 + 30 * 60)

/-- The position dict as `trading_bot.py` shapes it (`initial_sl` /
`effective_sl` field names). -/
structure TBPosition where
  active : Bool
  side : String
  quantity : ℤ
  entry_price : ℚ
  initial_sl : ℚ
  effective_sl : ℚ
deriving DecidableEq, Repr

/-- `LiveTradingBot`'s mutable state: the shared position, a pending order
id, the accumulated candles and the indicator value series. -/
structure BotState where
  pos : TBPosition
  orderId : Option String
  candles : List Candle
  rsi : List ℚ
  atr : List ℚ
deriving DecidableEq, Repr

/-- Observable effects of one `run` iteration. -/
inductive BotAction
  | orderStatusPoll
  | fetchLiveCandle
  | placeOrder (transaction : String) (quantity : ℤ)
deriving DecidableEq, Repr

/-- Pandas `iloc[-i]` on a rational series, with default 0. -/
def ilocNeg (l : List ℚ) (i : ℕ) : ℚ := l.getD (l.length - i) 0

/-- Default candle for out-of-range window lookups. -/
def defaultCandle : Candle := { date := 0, copen := 0, chigh := 0, clow := 0, cclose := 0 }

/-- Pandas `iloc[-i]` on the candle frame. -/
def ilocNegC (l : List Candle) (i : ℕ) : Candle := l.getD (l.length - i) defaultCandle

/-- `LiveTradingBot.check_exit_conditions` (lines 203–236): skip when no
active position or an order is pending; else ratchet the effective stop with
`max`/`min` against `low/high ∓ ATR * TRAILING_STOP_MULTIPLIER` and place
the opposing order when the candle breaches it (a paper id when
`liveMode` is off). -/
def checkExit (st : BotState) (liveMode : Bool) (tsm : ℚ)
    (orderRes : Option String) : BotState × List BotAction :=
  if st.pos.active = false ∨ st.orderId.isSome then (st, [])
  else
    let cur := ilocNegC st.candles 1
    if st.pos.side = "LONG" then
      let newSl := cur.clow - ilocNeg st.atr 1 * tsm
      let eff := max st.pos.effective_sl newSl
      let pos' := { st.pos with effective_sl := eff }
      if cur.clow ≤ eff then
        ({ st with
            pos := pos',
            orderId :=
              if liveMode then orderRes else some "paper_trade_id_sell_exit" },
         if liveMode then [.placeOrder "SELL" st.pos.quantity] else [])
      else ({ st with pos := pos' }, [])
    else if st.pos.side = "SHORT" then
      let newSl := cur.chigh + ilocNeg st.atr 1 * tsm
      let eff := min st.pos.effective_sl newSl
      let pos' := { st.pos with effective_sl := eff }
      if eff ≤ cur.chigh then
        ({ st with
            pos := pos',
            orderId :=
              if liveMode then orderRes else some "paper_trade_id_buy_exit" },
         if liveMode then [.placeOrder "BUY" st.pos.quantity] else [])
      else ({ st with pos := pos' }, [])
    else (st, [])

/-- `LiveTradingBot.check_entry_conditions` (lines 156–201): skip when a
position is active or an order is pending; else scan the previous five
candles for an RSI divergence paired with an engulfing pattern and place the
corresponding order. -/
def checkEntry (st : BotState) (liveMode : Bool) (tradeQty : ℤ)
    (orderRes : Option String) : BotState × List BotAction :=
  if st.pos.active = true ∨ st.orderId.isSome then (st, [])
  else
    let cur := ilocNegC st.candles 1
    let curRsi := ilocNeg st.rsi 1
    let prev2 := ilocNegC st.candles 2
    let bull := (List.range 5).find? (fun j =>
      let prevC := ilocNegC st.candles (j + 2)
      let prevR := ilocNeg st.rsi (j + 2)
      decide (cur.clow < prevC.clow) && decide (prevR < curRsi) &&
        isBullishEngulfing prev2 cur)
    match bull with
    | some _ =>
        ({ st with orderId :=
            if liveMode then orderRes else some "paper_trade_id_buy" },
         if liveMode then [.placeOrder "BUY" tradeQty] else [])
    | none =>
      let bear := (List.range 5).find? (fun j =>
        let prevC := ilocNegC st.candles (j + 2)
        let prevR := ilocNeg st.rsi (j + 2)
        decide (prevC.chigh < cur.chigh) && decide (curRsi < prevR) &&
          isBearishEngulfing prev2 cur)
      match bear with
      | some _ =>
          ({ st with orderId :=
              if liveMode then orderRes else some "paper_trade_id_sell" },
           if liveMode then [.placeOrder "SELL" tradeQty] else [])
      | none => (st, [])

/-- Candle-processing tail of one `run` iteration (lines 294–317): fetch the
latest candle; if it is new, append it, recompute RSI/ATR through the
indicator functions (oracles `rsiF`/`atrF` — indicator math is an external
pure-function collaborator), then run the exit and entry checks. -/
def candleLogic (st : BotState) (acc : List BotAction)
    (liveCandle : Option Candle) (rsiF atrF : List Candle → List ℚ)
    (liveMode : Bool) (tradeQty : ℤ) (tsm : ℚ)
    (exitOrderRes entryOrderRes : Option String) : BotState × List BotAction :=
  match liveCandle with
  | none => (st, acc ++ [.fetchLiveCandle])
  | some c =>
    if st.candles.any (fun x => x.date = c.date) then
      (st, acc ++ [.fetchLiveCandle])
    else
      let candles' := st.candles ++ [c]
      let st1 : BotState :=
        { st with candles := candles', rsi := rsiF candles', atr := atrF candles' }
      let r2 := checkExit st1 liveMode tsm exitOrderRes
      let r3 := checkEntry r2.1 liveMode tradeQty entryOrderRes
      (r3.1, acc ++ [.fetchLiveCandle] ++ r2.2 ++ r3.2)

/-- One iteration of `LiveTradingBot.run`'s while-body (lines 272–320).
Outside market hours the bot only sleeps — no order poll, no candle fetch,
no checks, no state change.  Inside, a pending order is polled
(`filledPrice` = its fill price when COMPLETE): while unfilled the iteration
ends after the poll; on a fill the position is activated with an ATR-based
initial stop; then the candle logic runs. -/
def runIter (t : Monitor.Time) (st : BotState) (filledPrice : Option ℚ)
    (liveCandle : Option Candle) (rsiF atrF : List Candle → List ℚ)
    (liveMode : Bool) (tradeQty : ℤ) (atrMult tsm : ℚ)
    (exitOrderRes entryOrderRes : Option String) : BotState × List BotAction :=
  if isMarketOpen t = false then (st, [])
  else
    match st.orderId with
    | some _ =>
      match filledPrice with
      | none => (st, [.orderStatusPoll])
      | some price =>
        let initSl :=
          if st.pos.side = "LONG" then price - ilocNeg st.atr 1 * atrMult
          else price + ilocNeg st.atr 1 * atrMult
        let st' : BotState :=
          { st with
            pos :=
              { st.pos with
                entry_price := price,
                active := true,
                initial_sl := initSl,
                effective_sl := initSl },
            orderId := none }
        candleLogic st' [.orderStatusPoll] liveCandle rsiF atrF liveMode
          tradeQty tsm exitOrderRes entryOrderRes
    | none =>
        candleLogic st [] liveCandle rsiF atrF liveMode tradeQty tsm
          exitOrderRes entryOrderRes

end TradingBot

/-- A concrete active LONG position, used for concrete evaluations. -/
def sampleActiveLong : Position :=
  { active := true, symbol := "SBIN25OCTFUT", side := "LONG", entry_price := 100,
    stop_loss := 99, effective_stop_loss := none, quantity := some 750 }

namespace AppWebhook

/-- Parsed webhook request fields used by `app.py`'s `/webhook` handler:
whether the payload's `secret` matches `WEBHOOK_SECRET`, the upper-cased
`direction` string, and the parsed `price`. -/
structure Req where
  secretOk : Bool
  direction : String
  price : ℚ
deriving DecidableEq, Repr

/-- The closed outcome set of `app.py`'s `/webhook` handler (its JSON
responses); note there is no already-active rejection among them. -/
inductive Outcome
  | unauthorized
  | testOk
  | invalidDirection
  | symbolResolutionFailed
  | histogramFetchFailed
  | noGreenFlip
  | noRedFlip
  | orderSuccess (orderId : String)
  | orderFailed
deriving DecidableEq, Repr

/-- Outbound broker-order request, recorded when the handler calls
`place_order`. -/
inductive Action
  | placeOrder (symbol direction : String) (price : ℚ)
deriving DecidableEq, Repr

/-- `app.py` lines 180–241 (`webhook`): secret gate, `TEST` shortcut,
direction validation, symbol resolution, histogram confirmation gate, then
order placement.  The handler never reads the shared position state, which
is threaded through unchanged.  `resolveRes` is `resolve_sbin_future`'s
result (`none` = it raised), `histRes` is `fetch_histogram`'s result, and
`orderRes` the order id returned by `place_order` (whose defining
order-manager variant is not among the source files; the call itself is
recorded as an action). -/
def webhook (pos : Position) (req : Req) (resolveRes : Option String)
    (histRes : Option Histogram.HistResult × String) (orderRes : Option String) :
    Position × Outcome × List Action :=
  if req.secretOk = false then (pos, .unauthorized, [])
  else if req.direction = "TEST" then (pos, .testOk, [])
  else if req.direction ≠ "LONG" ∧ req.direction ≠ "SHORT" then
    (pos, .invalidDirection, [])
  else
    match resolveRes with
    | none => (pos, .symbolResolutionFailed, [])
    | some symbol =>
      if histRes.2 ≠ "ok" then (pos, .histogramFetchFailed, [])
      else
        match histRes.1 with
        | none => (pos, .histogramFetchFailed, [])
        | some r =>
          if req.direction = "LONG" ∧ ¬(0 < r.hist ∧ r.cross_to_green = true) then
            (pos, .noGreenFlip, [])
          else if req.direction = "SHORT" ∧ ¬(r.hist < 0 ∧ r.cross_to_red = true) then
            (pos, .noRedFlip, [])
          else
            match orderRes with
            | some oid =>
                (pos, .orderSuccess oid, [.placeOrder symbol req.direction req.price])
            | none =>
                (pos, .orderFailed, [.placeOrder symbol req.direction req.price])

end AppWebhook

namespace TradeEntry

/-- Parsed webhook payload fields used by `trade_entry.handle_trade_webhook`:
whether `password` matches `WEBHOOK_PASSWORD`, and the optional `symbol` and
`timeframe` fields. -/
structure Req where
  passwordOk : Bool
  symbol : Option String
  timeframe : Option String
deriving DecidableEq, Repr

/-- The closed outcome set of `handle_trade_webhook`. -/
inductive Outcome
  | unauthorized
  | missingFields
  | alreadyActive
  | resolveFailed
  | tokenFailed
  | noHistoricalData
  | fetchFailed
  | bullishPlaced
  | bearishPlaced
  | noSignal
deriving DecidableEq, Repr

/-- Outbound broker-order request recorded when the handler calls
`place_order`. -/
inductive Action
  | placeOrder (symbol side : String)
deriving DecidableEq, Repr

/-- `trade_entry.py` `handle_trade_webhook` (lines 17–95): password gate,
required-field check, the at-most-one-position guard ("Already in a trade,
ignoring signal"), symbol resolution (`resolve_current_month_symbol`, whose
defining module is not among the source files — an oracle argument), token
resolution, historical-close fetch (`none` = the fetch raised, `some []` =
no data), then the `macd_indicator` crossover gates. -/
def handleTradeWebhook (pos : Position) (req : Req)
    (resolveSym : String → Option String) (tokenOf : String → Option ℕ)
    (histRes : Option (List ℚ)) : Position × Outcome × List Action :=
  if req.passwordOk = false then (pos, .unauthorized, [])
  else
    match req.symbol, req.timeframe with
    | some base, some _tf =>
      if pos.active then (pos, .alreadyActive, [])
      else
        match resolveSym base with
        | none => (pos, .resolveFailed, [])
        | some sym =>
          match tokenOf sym with
          | none => (pos, .tokenFailed, [])
          | some _token =>
            match histRes with
            | none => (pos, .fetchFailed, [])
            | some closes =>
              if closes.isEmpty then (pos, .noHistoricalData, [])
              else if MacdIndicator.isBullishCrossover closes then
                (pos, .bullishPlaced, [.placeOrder sym "LONG"])
              else if MacdIndicator.isBearishCrossover closes then
                (pos, .bearishPlaced, [.placeOrder sym "SHORT"])
              else (pos, .noSignal, [])
    | _, _ => (pos, .missingFields, [])

end TradeEntry

/-- Claim C1 (amended): in `monitor_loop`, across any sequence of 5-minute
stop recomputations in which the position stays active (no exit fires), the
stored `effective_stop_loss` is non-decreasing for a LONG position and
non-increasing for a SHORT position, given `0 ≤ TSL_PERCENT ≤ 1` and the
invariant that the incoming stop does not exceed (resp. fall below) the
uncapped stop `max(initial, high*(1-tsl))` (resp. `min(initial, low*(1+tsl))`)
— which holds at the first recomputation, where the stored stop is the
initial stop-loss.  (As stated over all recomputations the claim fails: at
the recomputation that triggers exit the stored value may drop to the
current price just before the position is closed; see the counterexample.) -/
theorem claim_C1_ratchet_while_no_exit
    (tsl : ℚ) (htsl0 : 0 ≤ tsl) (htsl1 : tsl ≤ 1)
    (initL hi0 e0 hi1 e1 : ℚ) (ltpsL : List ℚ)
    (hInvL : e0 ≤ max initL (hi0 * (1 - tsl)))
    (hL : Monitor.runLong initL tsl (hi0, e0) ltpsL = some (hi1, e1))
    (initS lo0 f0 lo1 f1 : ℚ) (ltpsS : List ℚ)
    (hInvS : min initS (lo0 * (1 + tsl)) ≤ f0)
    (hS : Monitor.runShort initS tsl (lo0, f0) ltpsS = some (lo1, f1)) :
    e0 ≤ e1 ∧ f1 ≤ f0 :=
  ⟨(Monitor.runLong_mono initL tsl htsl1 ltpsL hi0 e0 hi1 e1 hInvL hL).1,
   (Monitor.runShort_anti initS tsl htsl0 ltpsS lo0 f0 lo1 f1 hInvS hS).1⟩

/-- Witness for C1: a concrete exit-free LONG run (entry 100, initial stop 99,
prices 110 then 109.5) raises the stop from 99 to 109.175, and a concrete
exit-free SHORT run (initial stop 101, prices 90 then 90.5) lowers it from
101 to 90.675. -/
theorem claim_C1_ratchet_while_no_exit_witness :
    (99 : ℚ) ≤ 4367/40 ∧ (3627/40 : ℚ) ≤ 101 :=
  claim_C1_ratchet_while_no_exit (3/400) (by norm_num) (by norm_num)
    99 100 99 110 (4367/40) [110, 219/2] (le_max_left _ _)
      (by norm_num [Monitor.runLong, Monitor.slStepLong, max_def, min_def])
    101 100 101 90 (3627/40) [90, 181/2] (min_le_left _ _)
      (by norm_num [Monitor.runShort, Monitor.slStepShort, max_def, min_def])

/-- Counterexample to C1 as stated: with initial stop 99 and
`TSL_PERCENT = 0.0075`, a recomputation at price 110 stores effective stop
109.175 without exiting, and the next recomputation at price 105 stores the
strictly smaller effective stop 105 (the price cap) — the value decreased
between two consecutive recomputations of an active LONG position (that
second recomputation then triggers the exit). -/
theorem claim_C1_counterexample :
    (Monitor.slStepLong 99 (3/400) 100 110).exited = false ∧
    (Monitor.slStepLong 99 (3/400)
        (Monitor.slStepLong 99 (3/400) 100 110).track 105).eff
      < (Monitor.slStepLong 99 (3/400) 100 110).eff ∧
    (Monitor.slStepLong 99 (3/400)
        (Monitor.slStepLong 99 (3/400) 100 110).track 105).exited = true := by
  norm_num [Monitor.slStepLong, max_def, min_def]

/-- Claim C3 (confirmed): the LONG recomputation computes exactly the spec's
rule — candidate trail `high * (1 - TSL_PERCENT)` over the running high and
effective stop `max(initial_stop_loss, min(candidate, current_price))` — and
on the spec's example (entry 100, initial stop 99, `TSL_PERCENT = 0.0075`,
watermark initialised to the entry) a rise to 110 stores effective stop
109.175 without exiting and a subsequent drop to 109.0 triggers the exit. -/
theorem claim_C3_trailing_stop_rule :
    (∀ initSL tsl h0 ltp : ℚ,
      Monitor.slStepLong initSL tsl h0 ltp =
        { track := max h0 ltp,
          eff := Monitor.specEffStopLong initSL tsl h0 ltp,
          exited := decide (ltp ≤ Monitor.specEffStopLong initSL tsl h0 ltp) }) ∧
    ((Monitor.slStepLong 99 (3/400) ((none : Option ℚ).getD 100) 110).eff
        = 109175/1000 ∧
      (Monitor.slStepLong 99 (3/400) ((none : Option ℚ).getD 100) 110).exited
        = false ∧
      (Monitor.slStepLong 99 (3/400)
          (Monitor.slStepLong 99 (3/400) ((none : Option ℚ).getD 100) 110).track
          109).exited = true) :=
  ⟨fun _ _ _ _ => rfl,
   by norm_num [Monitor.slStepLong, max_def, min_def]⟩

/-- Claim C10 (confirmed): at a 5-minute recomputation the price cap never
masks a trigger — a LONG step exits iff the price is at most
`max(initial_stop_loss, high * (1 - TSL_PERCENT))` (with `high` the updated
watermark) and a SHORT step exits iff the price is at least
`min(initial_stop_loss, low * (1 + TSL_PERCENT))`, because whenever the price
is at or below (above) the candidate trail, the freshly stored effective stop
is at or above (below) the price. -/
theorem claim_C10_cap_never_masks_trigger (initSL tsl h0 l0 ltp : ℚ) :
    ((Monitor.slStepLong initSL tsl h0 ltp).exited = true ↔
        ltp ≤ max initSL (max h0 ltp * (1 - tsl))) ∧
    ((Monitor.slStepShort initSL tsl l0 ltp).exited = true ↔
        min initSL (min l0 ltp * (1 + tsl)) ≤ ltp) ∧
    (ltp ≤ max h0 ltp * (1 - tsl) →
        ltp ≤ (Monitor.slStepLong initSL tsl h0 ltp).eff) ∧
    (min l0 ltp * (1 + tsl) ≤ ltp →
        (Monitor.slStepShort initSL tsl l0 ltp).eff ≤ ltp) := by
  refine ⟨Monitor.slStepLong_exited_iff initSL tsl h0 ltp,
    Monitor.slStepShort_exited_iff initSL tsl l0 ltp, ?_, ?_⟩
  · intro h
    rw [Monitor.slStepLong_eff, min_eq_right h]
    exact le_max_right _ _
  · intro h
    show min initSL (max (min l0 ltp * (1 + tsl)) ltp) ≤ ltp
    rw [max_eq_right h]
    exact min_le_right _ _

/-- Witness for C10 at concrete inputs: LONG with high 100, price 98,
`TSL_PERCENT = 0.0075` (price below the trail 99.25, so the stored stop is
at least the price); SHORT with low 100, price 102 (price above the trail
100.75, so the stored stop is at most the price). -/
theorem claim_C10_cap_never_masks_trigger_witness :
    (98 : ℚ) ≤ (Monitor.slStepLong 99 (3/400) 100 98).eff ∧
    (Monitor.slStepShort 101 (3/400) 100 102).eff ≤ (102 : ℚ) :=
  ⟨(claim_C10_cap_never_masks_trigger 99 (3/400) 100 100 98).2.2.1
      (by norm_num [max_def]),
   (claim_C10_cap_never_masks_trigger 101 (3/400) 100 100 102).2.2.2
      (by norm_num [min_def])⟩

/-- With at least 26 closes, `fetch_histogram` succeeds and returns the
latest/previous histogram comparison flags. -/
theorem Histogram.fetchHistogram_eq_of_ge26 (closes : List ℚ)
    (h26 : 26 ≤ closes.length) :
    Histogram.fetchHistogram closes =
      (some { hist := Histogram.lastD (Histogram.histSeries closes),
              cross_to_green :=
                decide (0 < Histogram.lastD (Histogram.histSeries closes)) &&
                  decide (Histogram.prevD (Histogram.histSeries closes) ≤ 0),
              cross_to_red :=
                decide (Histogram.lastD (Histogram.histSeries closes) < 0) &&
                  decide (0 ≤ Histogram.prevD (Histogram.histSeries closes)) },
       "ok") := by
  have h0 : ¬closes.isEmpty = true := by
    cases closes with
    | nil => simp at h26
    | cons a l => simp
  have h1 : ¬closes.length < 26 := by omega
  have h2 : ¬closes.length < 2 := by omega
  rw [Histogram.fetchHistogram, if_neg h0, if_neg h1, if_neg h2]

/-- The exponential-mean recurrence fixes a constant series. -/
theorem Histogram.ewmFrom_const (alpha c : ℚ) (n : ℕ) :
    Histogram.ewmFrom alpha c (List.replicate n c) = List.replicate n c := by
  induction n with
  | zero => rfl
  | succ k ih =>
      have hc : alpha * c + (1 - alpha) * c = c := by ring
      simp only [List.replicate_succ, Histogram.ewmFrom, hc, ih]

/-- `ewm(span=n, adjust=False)` fixes a constant series. -/
theorem Histogram.ewmSpan_const (span : ℕ) (c : ℚ) (n : ℕ) :
    Histogram.ewmSpan span (List.replicate n c) = List.replicate n c := by
  cases n with
  | zero => rfl
  | succ k =>
      simp only [List.replicate_succ, Histogram.ewmSpan, Histogram.ewmFrom_const]

/-- On a constant series the MACD histogram is identically zero. -/
theorem Histogram.histSeries_const (c : ℚ) (n : ℕ) :
    Histogram.histSeries (List.replicate n c) = List.replicate n 0 := by
  have hz : ∀ m : ℕ, ∀ a b : ℚ,
      List.zipWith (fun x y => x - y) (List.replicate m a) (List.replicate m b) =
        List.replicate m (a - b) := by
    intro m
    induction m with
    | zero => intro a b; rfl
    | succ k ih =>
        intro a b
        simp only [List.replicate_succ, List.zipWith, ih]
  simp only [Histogram.histSeries, Histogram.ewmSpan_const, hz, sub_self,
    Histogram.ewmSpan_const]

/-- Any lookup with default 0 in a replicated-zero list yields 0. -/
theorem Histogram.getD_replicate_zero (n i : ℕ) :
    (List.replicate n (0 : ℚ)).getD i 0 = 0 := by
  simp only [List.getD_eq_getElem?_getD, List.getElem?_replicate]
  split <;> rfl

/-- Claim C2 (amended): `handle_trade_webhook` enforces the
at-most-one-position guard — an authenticated, well-formed invocation while
the shared position state is active returns the already-active outcome,
issues no order call, and leaves the state unchanged.  The `app.py`
`/webhook` handler, however, performs no active-position check and its
outcome set contains no already-active rejection (see the counterexample). -/
theorem claim_C2_already_active_guard (pos : Position) (req : TradeEntry.Req)
    (resolveSym : String → Option String) (tokenOf : String → Option ℕ)
    (histRes : Option (List ℚ)) (b tf : String)
    (hpw : req.passwordOk = true)
    (hsym : req.symbol = some b) (htf : req.timeframe = some tf)
    (hactive : pos.active = true) :
    TradeEntry.handleTradeWebhook pos req resolveSym tokenOf histRes =
      (pos, TradeEntry.Outcome.alreadyActive, []) := by
  simp [TradeEntry.handleTradeWebhook, hpw, hsym, htf, hactive]

/-- Witness for C2: a concrete authenticated request while
`sampleActiveLong` is active is rejected as already-active with no order. -/
theorem claim_C2_already_active_guard_witness :
    TradeEntry.handleTradeWebhook sampleActiveLong
        ⟨true, some "SBIN", some "30minute"⟩ (fun _ => none) (fun _ => none)
        none =
      (sampleActiveLong, TradeEntry.Outcome.alreadyActive, []) :=
  claim_C2_already_active_guard sampleActiveLong
    ⟨true, some "SBIN", some "30minute"⟩ (fun _ => none) (fun _ => none) none
    "SBIN" "30minute" rfl rfl rfl rfl

/-- Counterexample to C2 as stated: with the shared position state active,
the `app.py` `/webhook` handler still proceeds — on a confirmed LONG signal
it calls `place_order` and answers success, never an already-active
rejection. -/
theorem claim_C2_counterexample :
    sampleActiveLong.active = true ∧
    AppWebhook.webhook sampleActiveLong ⟨true, "LONG", 100⟩
        (some "SBIN25OCTFUT")
        (some { hist := 1, cross_to_green := true, cross_to_red := false }, "ok")
        (some "250929000000001") =
      (sampleActiveLong, AppWebhook.Outcome.orderSuccess "250929000000001",
        [AppWebhook.Action.placeOrder "SBIN25OCTFUT" "LONG" 100]) := by
  exact ⟨rfl, by decide⟩

/-- Claim C4 (confirmed): the entry confirmation gate — given a resolved
symbol and at least 26 closes whose histogram shows no green flip, a LONG
request through the `/webhook` handler returns the ignored/no-green-flip
outcome, issues no order call and leaves the position unchanged; the mirror
holds for SHORT with no red flip. -/
theorem claim_C4_confirmation_gate (pos : Position) (closes : List ℚ)
    (price : ℚ) (sym : String) (orderRes : Option String)
    (h26 : 26 ≤ closes.length) :
    (¬(0 < Histogram.lastD (Histogram.histSeries closes) ∧
          Histogram.prevD (Histogram.histSeries closes) ≤ 0) →
      AppWebhook.webhook pos ⟨true, "LONG", price⟩ (some sym)
          (Histogram.fetchHistogram closes) orderRes =
        (pos, AppWebhook.Outcome.noGreenFlip, [])) ∧
    (¬(Histogram.lastD (Histogram.histSeries closes) < 0 ∧
          0 ≤ Histogram.prevD (Histogram.histSeries closes)) →
      AppWebhook.webhook pos ⟨true, "SHORT", price⟩ (some sym)
          (Histogram.fetchHistogram closes) orderRes =
        (pos, AppWebhook.Outcome.noRedFlip, [])) := by
  rw [Histogram.fetchHistogram_eq_of_ge26 closes h26]
  constructor
  · intro hno
    simp [AppWebhook.webhook, Bool.and_eq_true, decide_eq_true_eq,
      and_self_left, hno]
  · intro hno
    simp [AppWebhook.webhook, Bool.and_eq_true, decide_eq_true_eq,
      and_self_left, hno]

/-- Witness for C4: 26 constant closes produce a zero histogram, so both a
LONG and a SHORT request are ignored with no order call. -/
theorem claim_C4_confirmation_gate_witness :
    AppWebhook.webhook clearedPosition ⟨true, "LONG", 100⟩
        (some "SBIN25OCTFUT")
        (Histogram.fetchHistogram (List.replicate 26 (100 : ℚ))) none =
      (clearedPosition, AppWebhook.Outcome.noGreenFlip, []) ∧
    AppWebhook.webhook clearedPosition ⟨true, "SHORT", 100⟩
        (some "SBIN25OCTFUT")
        (Histogram.fetchHistogram (List.replicate 26 (100 : ℚ))) none =
      (clearedPosition, AppWebhook.Outcome.noRedFlip, []) :=
  ⟨(claim_C4_confirmation_gate clearedPosition (List.replicate 26 (100 : ℚ))
      100 "SBIN25OCTFUT" none (by simp)).1
      (by rw [Histogram.histSeries_const]
          simp only [Histogram.lastD, Histogram.prevD,
            Histogram.getD_replicate_zero]
          norm_num),
   (claim_C4_confirmation_gate clearedPosition (List.replicate 26 (100 : ℚ))
      100 "SBIN25OCTFUT" none (by simp)).2
      (by rw [Histogram.histSeries_const]
          simp only [Histogram.lastD, Histogram.prevD,
            Histogram.getD_replicate_zero]
          norm_num)⟩

/-- Claim C6 (amended): `fetch_histogram` fails for every input series of
fewer than 26 data points — with the no-candles outcome when the series is
empty and the insufficient-data outcome otherwise; on success (at least 26
points) it returns status `ok` with `cross_to_green` true iff the current
histogram value is positive and the previous one is at most 0, and
`cross_to_red` the mirror; the separate `macd_indicator` crossover helpers
require at least 35 points and report no crossover below that. -/
theorem claim_C6_histogram_contract (closes : List ℚ) :
    (closes = [] → Histogram.fetchHistogram closes = (none, "error_no_candles")) ∧
    (closes ≠ [] → closes.length < 26 →
        Histogram.fetchHistogram closes = (none, "error_insufficient_data")) ∧
    (26 ≤ closes.length → ∃ r : Histogram.HistResult,
        Histogram.fetchHistogram closes = (some r, "ok") ∧
        r.hist = Histogram.lastD (Histogram.histSeries closes) ∧
        (r.cross_to_green = true ↔
          (0 < r.hist ∧ Histogram.prevD (Histogram.histSeries closes) ≤ 0)) ∧
        (r.cross_to_red = true ↔
          (r.hist < 0 ∧ 0 ≤ Histogram.prevD (Histogram.histSeries closes)))) ∧
    (closes.length < 35 →
        MacdIndicator.isBullishCrossover closes = false ∧
        MacdIndicator.isBearishCrossover closes = false) := by
  refine ⟨?_, ?_, ?_, ?_⟩
  · rintro rfl
    rfl
  · intro hne hlt
    rw [Histogram.fetchHistogram, if_neg (by simpa using hne), if_pos hlt]
  · intro hge
    have h0 : ¬closes.isEmpty = true := by
      cases closes with
      | nil => simp at hge
      | cons a l => simp
    have h1 : ¬closes.length < 26 := by omega
    have h2 : ¬closes.length < 2 := by omega
    refine ⟨{ hist := Histogram.lastD (Histogram.histSeries closes),
              cross_to_green :=
                decide (0 < Histogram.lastD (Histogram.histSeries closes)) &&
                  decide (Histogram.prevD (Histogram.histSeries closes) ≤ 0),
              cross_to_red :=
                decide (Histogram.lastD (Histogram.histSeries closes) < 0) &&
                  decide (0 ≤ Histogram.prevD (Histogram.histSeries closes)) },
            ?_, rfl, ?_, ?_⟩
    · rw [Histogram.fetchHistogram, if_neg h0, if_neg h1, if_neg h2]
    · simp [Bool.and_eq_true, decide_eq_true_eq]
    · simp [Bool.and_eq_true, decide_eq_true_eq]
  · intro hlt
    constructor
    · rw [MacdIndicator.isBullishCrossover, if_pos hlt]
    · rw [MacdIndicator.isBearishCrossover, if_pos hlt]

/-- Witness for C6: 26 constant closes give status `ok`, histogram value 0,
and no crossover flags. -/
theorem claim_C6_histogram_contract_witness :
    ∃ r : Histogram.HistResult,
      Histogram.fetchHistogram (List.replicate 26 (100 : ℚ)) = (some r, "ok") ∧
      r.hist = Histogram.lastD (Histogram.histSeries (List.replicate 26 (100 : ℚ))) ∧
      (r.cross_to_green = true ↔
        (0 < r.hist ∧
          Histogram.prevD (Histogram.histSeries (List.replicate 26 (100 : ℚ))) ≤ 0)) ∧
      (r.cross_to_red = true ↔
        (r.hist < 0 ∧
          0 ≤ Histogram.prevD (Histogram.histSeries (List.replicate 26 (100 : ℚ))))) :=
  (claim_C6_histogram_contract (List.replicate 26 (100 : ℚ))).2.2.1 (by simp)

/-- Counterexample to C6 as stated: the empty series has fewer than 26 data
points but fails with the no-candles outcome, not the insufficient-data
outcome. -/
theorem claim_C6_counterexample :
    Histogram.fetchHistogram ([] : List ℚ) = (none, "error_no_candles") ∧
    Histogram.fetchHistogram ([] : List ℚ) ≠ (none, "error_insufficient_data") := by
  exact ⟨rfl, by decide⟩

/-- Claim C5 (confirmed, against the spec model of the missing
`order_manager.exit_position`): when nothing is active (or the quantity is
zero) exit places no order and resets to the cleared defaults, never
raising; when a position is active it places exactly one opposing market
order for the full held quantity and clears the state regardless of that
order's success; a second exit immediately after places no order and leaves
the cleared defaults. -/
theorem claim_C5_exit_idempotent (p : Position) (ok ok2 : Bool) :
    ((p.active = true ∧ 0 < p.quantity.getD 0) →
        OrderManager.exitPosition p ok =
          (clearedPosition,
            [OrderManager.ExitAction.placeMarketOrder p.symbol
              (if p.side = "LONG" then "SELL" else "BUY")
              (p.quantity.getD 0)])) ∧
    (¬(p.active = true ∧ 0 < p.quantity.getD 0) →
        OrderManager.exitPosition p ok = (clearedPosition, [])) ∧
    OrderManager.exitPosition (OrderManager.exitPosition p ok).1 ok2 =
      (clearedPosition, []) := by
  refine ⟨?_, ?_, ?_⟩
  · rintro ⟨ha, hq⟩
    have hcond : ¬(p.active = false ∨ p.quantity.getD 0 ≤ 0) := by
      rintro (h | h)
      · rw [ha] at h
        exact Bool.noConfusion h
      · omega
    simp only [OrderManager.exitPosition]
    rw [if_neg hcond]
  · intro hn
    have hcond : p.active = false ∨ p.quantity.getD 0 ≤ 0 := by
      rcases Bool.eq_false_or_eq_true p.active with h | h
      · right
        by_contra hq
        push_neg at hq
        exact hn ⟨h, hq⟩
      · exact Or.inl h
    simp only [OrderManager.exitPosition]
    rw [if_pos hcond]
  · have h1 : (OrderManager.exitPosition p ok).1 = clearedPosition := by
      simp only [OrderManager.exitPosition]
      split <;> rfl
    rw [h1]
    simp [OrderManager.exitPosition, clearedPosition]

/-- Witness for C5: exiting the concrete active LONG position places one
SELL order for the full 750 quantity and clears the state; exiting again
places nothing and leaves the cleared defaults. -/
theorem claim_C5_exit_idempotent_witness :
    OrderManager.exitPosition sampleActiveLong true =
      (clearedPosition,
        [OrderManager.ExitAction.placeMarketOrder "SBIN25OCTFUT"
          (if sampleActiveLong.side = "LONG" then "SELL" else "BUY") 750]) ∧
    OrderManager.exitPosition (OrderManager.exitPosition sampleActiveLong true).1
        false = (clearedPosition, []) :=
  ⟨(claim_C5_exit_idempotent sampleActiveLong true false).1 ⟨rfl, by decide⟩,
   (claim_C5_exit_idempotent sampleActiveLong true false).2.2⟩

/-- Claim C8 (confirmed): a monitor cycle whose LTP fetch fails performs no
action at all — no track save, no upload, no `exit_position` call — and
leaves the position, the track and both boundary trackers unchanged; the
loop just retries next cycle. -/
theorem claim_C8_quote_failure_no_exit (tsl : ℚ) (st : Monitor.CycleSt)
    (now : Monitor.Time) (histRes : Option Histogram.HistResult × String) :
    Monitor.monitorCycle tsl st now none histRes = (st, []) := by
  unfold Monitor.monitorCycle
  split <;> rfl

/-- Claim C9 (amended): the market-hours gate lives in `LiveTradingBot.run`
— an iteration at a time outside market hours (a weekend, or a weekday
before 09:15:00 or after 15:30:00 IST) only sleeps: it polls no order,
fetches no candle, runs no exit or entry check, and leaves the whole bot
state unchanged.  (`monitor_loop` itself has no such gate; see the
counterexample.) -/
theorem claim_C9_market_hours_gate (t : Monitor.Time) (st : TradingBot.BotState)
    (filledPrice : Option ℚ) (liveCandle : Option TradingBot.Candle)
    (rsiF atrF : List TradingBot.Candle → List ℚ) (liveMode : Bool)
    (tradeQty : ℤ) (atrMult tsm : ℚ) (exitOrderRes entryOrderRes : Option String)
    (hclosed : TradingBot.isMarketOpen t = false) :
    TradingBot.runIter t st filledPrice liveCandle rsiF atrF liveMode tradeQty
      atrMult tsm exitOrderRes entryOrderRes = (st, []) := by
  unfold TradingBot.runIter
  rw [if_pos hclosed]

/-- Witness for C9: Sunday 20:00:05 is outside market hours and a concrete
iteration at that time changes nothing. -/
theorem claim_C9_market_hours_gate_witness :
    TradingBot.runIter ⟨6, 20, 0, 5⟩
        ⟨⟨false, "", 0, 0, 0, 0⟩, none, [], [], []⟩ none none
        (fun _ => []) (fun _ => []) true 750 3 2 none none =
      (⟨⟨false, "", 0, 0, 0, 0⟩, none, [], [], []⟩, []) :=
  claim_C9_market_hours_gate ⟨6, 20, 0, 5⟩
    ⟨⟨false, "", 0, 0, 0, 0⟩, none, [], [], []⟩ none none
    (fun _ => []) (fun _ => []) true 750 3 2 none none (by decide)

/-- Counterexample to C9 as stated: `monitor_loop` has no market-hours gate.
At Sunday 20:00:05 — outside trading hours by `_is_market_open`'s own
definition — a cycle with an active LONG position still runs the full
5-minute block: it saves and uploads the track and even calls
`exit_position` when the price breaches the stop. -/
theorem claim_C9_counterexample :
    TradingBot.isMarketOpen ⟨6, 20, 0, 5⟩ = false ∧
    (Monitor.monitorCycle (1/200)
        { pos := sampleActiveLong, track := ⟨some 100, some 100⟩,
          last5 := none, last30 := none }
        ⟨6, 20, 0, 5⟩ (some 50) (none, "error_no_candles")).2 =
      [Monitor.CycleAction.saveHigh 100, Monitor.CycleAction.uploadTrack,
       Monitor.CycleAction.exitCall] ∧
    sampleActiveLong.active = true := by
  refine ⟨by decide, ?_, rfl⟩
  have h5 : Monitor.is5minBoundaryOnce ⟨6, 20, 0, 5⟩ none =
      (true, some (20, 0)) := by decide
  norm_num [Monitor.monitorCycle, h5, Monitor.slStepLong, sampleActiveLong,
    decide_eq_true_eq, max_def, min_def]

/-- Claim C7 (confirmed): whenever today is within the rollover threshold
(2 days, the constant in `resolve_sbin_future`) of the nearest monthly
expiry, the resolver targets next month's contract: the rolled expiry is
next month's last Thursday, its month differs from the expiring contract's
month, and any symbol the resolver returns — for every candle-availability
oracle — contains the base built from that next-month expiry.  The rollover
decision (`rolledExpiry`) is a function of today's date alone, fixed before
any candle data is consulted. -/
theorem claim_C7_rollover (today e : SymbolResolver.Date)
    (symbols : List String) (tokenOk : String → Bool)
    (candleCount : String → ℕ)
    (hexp : SymbolResolver.getMonthlyExpiry today.year today.month = some e)
    (hnear : (SymbolResolver.ordinalD e : ℤ) - (SymbolResolver.ordinalD today : ℤ) ≤
      SymbolResolver.rolloverThresholdDays) :
    SymbolResolver.rolledExpiry today =
      SymbolResolver.getMonthlyExpiry
        (SymbolResolver.nextMonthFirst today).year
        (SymbolResolver.nextMonthFirst today).month ∧
    (∀ e2, SymbolResolver.rolledExpiry today = some e2 →
        e2.month = (SymbolResolver.nextMonthFirst today).month ∧
        e2.month ≠ e.month) ∧
    (∀ s, SymbolResolver.resolveSbinFuture today symbols tokenOk candleCount =
          some s →
        ∃ e2, SymbolResolver.rolledExpiry today = some e2 ∧
          SymbolResolver.containsSubstring s
            (SymbolResolver.targetSymbolBase e2) = true ∧
          tokenOk s = true ∧ 26 ≤ candleCount s) := by
  have hroll : SymbolResolver.rolledExpiry today =
      SymbolResolver.getMonthlyExpiry
        (SymbolResolver.nextMonthFirst today).year
        (SymbolResolver.nextMonthFirst today).month := by
    unfold SymbolResolver.rolledExpiry
    rw [hexp]
    simp only [if_pos hnear]
  have hem : e.month = today.month :=
    (SymbolResolver.getMonthlyExpiry_month _ _ _ hexp).1
  refine ⟨hroll, ?_, ?_⟩
  · intro e2 h2
    rw [hroll] at h2
    have h3 := (SymbolResolver.getMonthlyExpiry_month _ _ _ h2).1
    refine ⟨h3, ?_⟩
    rw [h3, hem]
    unfold SymbolResolver.nextMonthFirst
    by_cases h12 : today.month = 12
    · rw [if_pos h12, h12]
      show (1 : ℕ) ≠ 12
      omega
    · rw [if_neg h12]
      show today.month + 1 ≠ today.month
      omega
  · intro s hs
    unfold SymbolResolver.resolveSbinFuture at hs
    cases hre : SymbolResolver.rolledExpiry today with
    | none => rw [hre] at hs; exact absurd hs (by simp)
    | some e2 =>
        rw [hre] at hs
        have hp := List.find?_some hs
        rw [Bool.and_eq_true, Bool.and_eq_true, decide_eq_true_eq] at hp
        exact ⟨e2, rfl, hp.1.1, hp.1.2, hp.2⟩

/-- Witness for C7: on 2025-08-26, two days before the August expiry
2025-08-28 (a Thursday), the resolver rolls to September — next month's last
Thursday — and a concrete catalogue resolves to the September contract. -/
theorem claim_C7_rollover_witness :
    SymbolResolver.rolledExpiry ⟨2025, 8, 26⟩ =
      SymbolResolver.getMonthlyExpiry
        (SymbolResolver.nextMonthFirst ⟨2025, 8, 26⟩).year
        (SymbolResolver.nextMonthFirst ⟨2025, 8, 26⟩).month ∧
    (∀ e2, SymbolResolver.rolledExpiry ⟨2025, 8, 26⟩ = some e2 →
        e2.month = (SymbolResolver.nextMonthFirst ⟨2025, 8, 26⟩).month ∧
        e2.month ≠ (⟨2025, 8, 28⟩ : SymbolResolver.Date).month) ∧
    (∀ s, SymbolResolver.resolveSbinFuture ⟨2025, 8, 26⟩
          ["SBIN25SEPFUT", "SBIN25AUGFUT"] (fun _ => true) (fun _ => 30) =
          some s →
        ∃ e2, SymbolResolver.rolledExpiry ⟨2025, 8, 26⟩ = some e2 ∧
          SymbolResolver.containsSubstring s
            (SymbolResolver.targetSymbolBase e2) = true ∧
          (fun _ : String => true) s = true ∧
          26 ≤ (fun _ : String => 30) s) :=
  claim_C7_rollover ⟨2025, 8, 26⟩ ⟨2025, 8, 28⟩
    ["SBIN25SEPFUT", "SBIN25AUGFUT"] (fun _ => true) (fun _ => 30)
    (by decide) (by decide)

end SbinBot
